import Mathlib

/-!
Verification development for `geogsuite.py`, a CSV GeoIP-enrichment
pipeline.  The Python source is shallowly embedded: pure functions become
Lean functions, `try/except` around backend calls becomes explicit
`Except`-valued oracles, pandas tables become ordered column names plus
rows of cells, and the `ipaddress` standard-library parser (the only
library whose behaviour the classifier depends on) is modelled after its
documented parsing and classification rules.
-/

/-! ## Python string primitives -/

/-- Whitespace for the purposes of `str.strip()` (modelled on the ASCII
whitespace the inputs use). -/
def pySpace (c : Char) : Bool := c.isWhitespace

/-- Model of Python `s.strip()`: drop whitespace from both ends. -/
def pyStrip (s : String) : String :=
  String.mk (((s.data.dropWhile pySpace).reverse.dropWhile pySpace).reverse)

/-- Split a character list on a separator; `splitChAux sep l acc` carries the
reversed current field.  Mirrors Python `str.split(sep)`: an empty string
yields one empty field, `n` separators yield `n + 1` fields. -/
def splitChAux (sep : Char) : List Char → List Char → List (List Char)
  | [], acc => [acc.reverse]
  | c :: cs, acc =>
    if c = sep then acc.reverse :: splitChAux sep cs []
    else splitChAux sep cs (c :: acc)

/-- Python `str.split(sep)` on character lists. -/
def splitCh (sep : Char) (l : List Char) : List (List Char) := splitChAux sep l []

/-! ## Model of the Python `ipaddress` module

`is_public_ip` calls `ipaddress.ip_address(...)` and the five boolean
range properties.  The parser below follows CPython's
`IPv4Address._ip_int_from_string` / `IPv6Address._ip_int_from_string`
(Python >= 3.9.5 rules: decimal octets without leading zeros, hextets of
at most four hex digits, a single `::`, optional embedded IPv4, optional
non-empty scope id after `%`). -/

/-- Numeric value of a decimal digit character. -/
def digitVal (c : Char) : Nat := c.toNat - 48

/-- Decimal value of a digit list. -/
def decVal (l : List Char) : Nat := l.foldl (fun a c => a * 10 + digitVal c) 0

/-- One dotted-quad octet: non-empty, decimal digits only, at most three
characters, no leading zero, value at most 255. -/
def parseOctet (l : List Char) : Option Nat :=
  if l = [] then none
  else if ¬ l.all Char.isDigit then none
  else if 3 < l.length then none
  else if l.head? = some '0' ∧ 1 < l.length then none
  else if 255 < decVal l then none
  else some (decVal l)

/-- `IPv4Address` parsing: exactly four octets separated by dots. -/
def parseIPv4 (l : List Char) : Option Nat :=
  match splitCh '.' l with
  | [a, b, c, d] => do
    let x ← parseOctet a
    let y ← parseOctet b
    let z ← parseOctet c
    let w ← parseOctet d
    pure (((x * 256 + y) * 256 + z) * 256 + w)
  | _ => none

/-- Hexadecimal digit test. -/
def isHexDigitCh (c : Char) : Bool :=
  c.isDigit || ('a' ≤ c && c ≤ 'f') || ('A' ≤ c && c ≤ 'F')

/-- Numeric value of a hexadecimal digit character. -/
def hexDigitVal (c : Char) : Nat :=
  if c.isDigit then c.toNat - 48
  else if 'a' ≤ c && c ≤ 'f' then c.toNat - 87
  else c.toNat - 55

/-- Hexadecimal value of a digit list. -/
def hexVal (l : List Char) : Nat := l.foldl (fun a c => a * 16 + hexDigitVal c) 0

/-- One IPv6 hextet: hex digits only, at most four, non-empty. -/
def parseHextet (l : List Char) : Option Nat :=
  if ¬ l.all isHexDigitCh then none
  else if 4 < l.length then none
  else if l = [] then none
  else some (hexVal l)

/-- A colon-separated IPv6 part: either literal text, or the numeric value
CPython re-inserts for the two hextets of an embedded IPv4 address (it
formats them as hex strings and re-parses them; the round trip is the
identity, so the value is carried directly). -/
inductive V6Tok where
  | txt (l : List Char)
  | val (n : Nat)
deriving DecidableEq

/-- An empty part (a candidate `::` position). -/
def tokEmpty : V6Tok → Bool
  | .txt l => l.isEmpty
  | .val _ => false

/-- Hextet value of a part. -/
def tokHextet : V6Tok → Option Nat
  | .txt l => parseHextet l
  | .val n => some n

/-- Fold parts into an integer, 16 bits per part, most significant first. -/
def foldHextets (toks : List V6Tok) : Option Nat :=
  toks.foldl (fun acc t => do
    let a ← acc
    let v ← tokHextet t
    pure (a * 65536 + v)) (some 0)

/-- `IPv6Address._ip_int_from_string`: at least three colon-parts, optional
embedded IPv4 in the last part, at most nine parts, a single `::`
compression filling to eight hextets. -/
def parseIPv6Core (l : List Char) : Option Nat :=
  if l = [] then none else
  let parts := splitCh ':' l
  if parts.length < 3 then none else
  let lastPart := parts.getLastD []
  let withV4 : Option (List V6Tok) :=
    if lastPart.contains '.' then
      match parseIPv4 lastPart with
      | none => none
      | some v =>
        some (parts.dropLast.map V6Tok.txt ++ [V6Tok.val (v / 65536), V6Tok.val (v % 65536)])
    else some (parts.map V6Tok.txt)
  match withV4 with
  | none => none
  | some toks =>
    if 9 < toks.length then none else
    let inner := (toks.drop 1).dropLast
    if 1 < inner.countP tokEmpty then none else
    match inner.findIdx? (fun t => tokEmpty t) with
    | some j =>
      let i := j + 1
      let firstEmpty := tokEmpty (toks.headD (V6Tok.val 0))
      let lastEmpty := tokEmpty (toks.getLastD (V6Tok.val 0))
      if firstEmpty ∧ i - 1 ≠ 0 then none else
      let hi := if firstEmpty then i - 1 else i
      let lo0 := toks.length - i - 1
      if lastEmpty ∧ lo0 - 1 ≠ 0 then none else
      let lo := if lastEmpty then lo0 - 1 else lo0
      if 8 ≤ hi + lo then none else
      let skipped := 8 - (hi + lo)
      do
        let hiV ← foldHextets (toks.take hi)
        let loV ← foldHextets (toks.drop (toks.length - lo))
        pure (hiV * 2 ^ (16 * (skipped + lo)) + loV)
    | none =>
      if toks.length ≠ 8 then none
      else if tokEmpty (toks.headD (V6Tok.val 0)) then none
      else if tokEmpty (toks.getLastD (V6Tok.val 0)) then none
      else foldHextets toks

/-- `IPv6Address` string parsing: reject `/`, split off an optional
non-empty scope id after the first `%` (a second `%` is an error). -/
def parseIPv6 (l : List Char) : Option Nat :=
  if l.contains '/' then none else
  match splitCh '%' l with
  | [addr] => parseIPv6Core addr
  | [addr, scope] => if scope = [] then none else parseIPv6Core addr
  | _ => none

/-- A parsed address: the integer value tagged with its version. -/
inductive IPAddr where
  | v4 (a : Nat)
  | v6 (a : Nat)
deriving DecidableEq

/-- `ipaddress.ip_address(s)`: try IPv4 first, then IPv6; `none` models the
`ValueError` for unparsable input. -/
def ip_address (s : String) : Option IPAddr :=
  match parseIPv4 s.data with
  | some v => some (IPAddr.v4 v)
  | none => (parseIPv6 s.data).map IPAddr.v6

/-- Membership of an IPv4 integer in a network given as (address, prefix length). -/
def mem4 (a net plen : Nat) : Bool :=
  a / 2 ^ (32 - plen) == net / 2 ^ (32 - plen)

/-- Membership of an IPv6 integer in a network given as (address, prefix length). -/
def mem6 (a net plen : Nat) : Bool :=
  a / 2 ^ (128 - plen) == net / 2 ^ (128 - plen)

/-- CPython `_IPv4Constants._private_networks`. -/
def privateNets4 : List (Nat × Nat) :=
  [(0x00000000, 8), (0x0A000000, 8), (0x7F000000, 8), (0xA9FE0000, 16),
   (0xAC100000, 12), (0xC0000000, 29), (0xC00000AA, 31), (0xC0000200, 24),
   (0xC0A80000, 16), (0xC6120000, 15), (0xC6336400, 24), (0xCB007100, 24),
   (0xF0000000, 4), (0xFFFFFFFF, 32)]

/-- CPython `_IPv6Constants._private_networks`. -/
def privateNets6 : List (Nat × Nat) :=
  [(1, 128), (0, 128), (0xFFFF * 2 ^ 32, 96), (0x100 * 2 ^ 112, 64),
   (0x2001 * 2 ^ 112, 23), (0x20010DB8 * 2 ^ 96, 32), (0xFC * 2 ^ 120, 7),
   (0xFE80 * 2 ^ 112, 10)]

/-- CPython `_IPv6Constants._reserved_networks`. -/
def reservedNets6 : List (Nat × Nat) :=
  [(0, 8), (0x100 * 2 ^ 112, 8), (0x200 * 2 ^ 112, 7), (0x400 * 2 ^ 112, 6),
   (0x800 * 2 ^ 112, 5), (0x1000 * 2 ^ 112, 4), (0x4000 * 2 ^ 112, 3),
   (0x6000 * 2 ^ 112, 3), (0x8000 * 2 ^ 112, 3), (0xA000 * 2 ^ 112, 3),
   (0xC000 * 2 ^ 112, 3), (0xE000 * 2 ^ 112, 4), (0xF000 * 2 ^ 112, 5),
   (0xF800 * 2 ^ 112, 6), (0xFE00 * 2 ^ 112, 9)]

/-- `ip.is_private`. -/
def is_private : IPAddr → Bool
  | .v4 a => privateNets4.any (fun p => mem4 a p.1 p.2)
  | .v6 a => privateNets6.any (fun p => mem6 a p.1 p.2)

/-- `ip.is_loopback` (127.0.0.0/8, or `::1`). -/
def is_loopback : IPAddr → Bool
  | .v4 a => mem4 a 0x7F000000 8
  | .v6 a => a == 1

/-- `ip.is_reserved` (240.0.0.0/4, or the IPv6 reserved network list). -/
def is_reserved : IPAddr → Bool
  | .v4 a => mem4 a 0xF0000000 4
  | .v6 a => reservedNets6.any (fun p => mem6 a p.1 p.2)

/-- `ip.is_link_local` (169.254.0.0/16, or fe80::/10). -/
def is_link_local : IPAddr → Bool
  | .v4 a => mem4 a 0xA9FE0000 16
  | .v6 a => mem6 a (0xFE80 * 2 ^ 112) 10

/-- `ip.is_multicast` (224.0.0.0/4, or ff00::/8). -/
def is_multicast : IPAddr → Bool
  | .v4 a => mem4 a 0xE0000000 4
  | .v6 a => mem6 a (0xFF00 * 2 ^ 112) 8

/-- `is_public_ip` from `geogsuite.py` lines 76-81: parse after stripping,
`False` on any parse error, else the negated disjunction of the five
non-routable range properties. -/
def is_public_ip (s : String) : Bool :=
  match ip_address (pyStrip s) with
  | none => false
  | some ip =>
    !(is_private ip || is_loopback ip || is_reserved ip || is_link_local ip || is_multicast ip)

/-! ## Classification

The spec's three-way classifier, induced by the ingredients of
`is_public_ip`: parse failure after stripping is Invalid, a parsed address
in one of the five non-routable ranges is Valid-Non-Routable, anything
else is Valid-Public. -/

/-- The five-range non-routability test of `is_public_ip`. -/
def nonRoutable (ip : IPAddr) : Bool :=
  is_private ip || is_loopback ip || is_reserved ip || is_link_local ip || is_multicast ip

/-- The three classes of the spec's Address data model. -/
inductive IPClass where
  | invalid
  | validNonRoutable
  | validPublic
deriving DecidableEq

/-- Three-way classification of an address string. -/
def classify (s : String) : IPClass :=
  match ip_address (pyStrip s) with
  | none => .invalid
  | some ip => if nonRoutable ip then .validNonRoutable else .validPublic

/-! ## Geo lookup adapter (`lookup`, lines 84-112)

The two MaxMind readers are modelled as oracles returning either a
response record or an exception (`Except Unit`); `geoip2` raises
`AddressNotFoundError` for misses, and the source swallows any exception
from either block independently. -/

/-- A `geoip2` country record (`city_resp.country`). -/
structure CountryRec where
  iso_code : Option String
deriving DecidableEq

/-- A `geoip2` subdivision record. -/
structure SubdivisionRec where
  name : Option String
  iso_code : Option String
deriving DecidableEq

/-- A `geoip2` city record (`city_resp.city`). -/
structure CityRec where
  name : Option String
deriving DecidableEq

/-- A `geoip2` location record (`city_resp.location`). -/
structure LocationRec where
  latitude : Option ℚ
  longitude : Option ℚ
deriving DecidableEq

/-- A city-database response; `subdivisions.most_specific` is the last
element of the subdivision list. -/
structure CityResp where
  country : Option CountryRec
  subdivisions : List SubdivisionRec
  city : Option CityRec
  location : Option LocationRec
deriving DecidableEq

/-- An ASN-database response. -/
structure AsnResp where
  autonomous_system_number : Option Nat
  autonomous_system_organization : Option String
deriving DecidableEq

/-- The tuple `(country_iso, region, city, lat, lon, asn, org)` that
`lookup` returns. -/
structure LookupResult where
  country_iso : Option String
  region : Option String
  city : Option String
  lat : Option ℚ
  lon : Option ℚ
  asn : Option Nat
  org : Option String
deriving DecidableEq

/-- The city-database reader: a per-IP call that may raise. -/
abbrev CityBackend := String → Except Unit CityResp

/-- The ASN-database reader (optional in the pipeline). -/
abbrev AsnBackend := String → Except Unit AsnResp

/-- Python `a or b` on optional strings: `a` when it is a non-empty
string, otherwise `b`. -/
def pyOr (a b : Option String) : Option String :=
  match a with
  | some s => if s = "" then b else some s
  | none => b

/-- `lookup` from `geogsuite.py`: the city block fills the five location
fields and any exception from it leaves them all `None`; the ASN block
runs independently afterwards when a reader is configured, and any
exception from it leaves `asn`/`org` as `None`. -/
def lookup (cityB : CityBackend) (asnB : Option AsnBackend) (ip : String) : LookupResult :=
  let base : LookupResult :=
    match cityB ip with
    | .error _ => ⟨none, none, none, none, none, none, none⟩
    | .ok resp =>
      ⟨resp.country.bind CountryRec.iso_code,
       (match resp.subdivisions.getLast? with
        | none => none
        | some sub => pyOr sub.name sub.iso_code),
       resp.city.bind CityRec.name,
       (match resp.location with
        | none => none
        | some l => l.latitude),
       (match resp.location with
        | none => none
        | some l => l.longitude),
       none, none⟩
  match asnB with
  | none => base
  | some f =>
    match f ip with
    | .error _ => base
    | .ok r =>
      { base with
        asn := r.autonomous_system_number,
        org := r.autonomous_system_organization }

/-- The five location fields of a result (filled by the primary backend). -/
def locFields (r : LookupResult) :
    Option String × Option String × Option String × Option ℚ × Option ℚ :=
  (r.country_iso, r.region, r.city, r.lat, r.lon)

/-! ## Record encoder (`format_geoip`, lines 115-130) -/

/-- The character of a decimal digit (`d` is taken mod 10). -/
def digitChar (d : Nat) : Char :=
  match d % 10 with
  | 0 => '0' | 1 => '1' | 2 => '2' | 3 => '3' | 4 => '4'
  | 5 => '5' | 6 => '6' | 7 => '7' | 8 => '8' | _ => '9'

/-- Decimal rendering of a natural number, fuel-driven (the fuel `n + 1`
always suffices since the argument shrinks by a factor of ten). -/
def natStrAux : Nat → Nat → List Char
  | 0, _ => []
  | f + 1, n => if n < 10 then [digitChar n] else natStrAux f (n / 10) ++ [digitChar (n % 10)]

/-- Decimal rendering of a natural number. -/
def natStr (n : Nat) : List Char := natStrAux (n + 1) n

/-- The six fractional digits of `m` (most significant first), zero padded:
the digits of `m % 1000000` as printed by `%.6f`. -/
def pad6 (m : Nat) : List Char :=
  [digitChar (m / 100000), digitChar (m / 10000), digitChar (m / 1000),
   digitChar (m / 100), digitChar (m / 10), digitChar m]

/-- Round-half-even of the fraction `num / den` (`den` positive), as
Python's formatting rounds ties. -/
def roundHalfEven (num den : ℤ) : ℤ :=
  let f := num.fdiv den
  let r := num - f * den
  if 2 * r < den then f
  else if den < 2 * r then f + 1
  else if f % 2 = 0 then f else f + 1

/-- Model of Python `f"{x:.6f}"` on rationals: round `x * 10^6` to an
integer (ties to even) and print sign, integer part, point, and exactly
six fractional digits.  Works on the numerator and denominator directly,
so it evaluates by pure integer arithmetic. -/
def formatFixed6 (q : ℚ) : String :=
  let s : ℤ := roundHalfEven (q.num * 1000000) (q.den : ℤ)
  let n : Nat := s.natAbs
  let sign : List Char := if s < 0 ∨ (s = 0 ∧ q.num < 0) then ['-'] else []
  String.mk (sign ++ natStr (n / 1000000) ++ '.' :: pad6 (n % 1000000))

/-- `format_geoip` from `geogsuite.py`: seven slots joined by `|`, missing
fields rendered as empty strings, coordinates via `%.6f`, ASN as
`AS<number>`. -/
def format_geoip (country_iso region city : Option String) (lat lon : Option ℚ)
    (asn : Option Nat) (org : Option String) : String :=
  country_iso.getD "" ++ "|" ++ region.getD "" ++ "|" ++ city.getD "" ++ "|" ++
  (match lat with | some q => formatFixed6 q | none => "") ++ "|" ++
  (match lon with | some q => formatFixed6 q | none => "") ++ "|" ++
  (match asn with | some n => "AS" ++ String.mk (natStr n) | none => "") ++ "|" ++
  org.getD ""

/-- Splitting a string on `|`, as Python `s.split('|')` does. -/
def splitPipe (s : String) : List String := (splitChAux '|' s.data []).map String.mk

/-! ## Table model and per-row computation -/

/-- A pandas cell: a string, a non-string scalar (carrying its `str()`
rendering, which is what `.astype(str)` produces for it), or a null. -/
inductive Cell where
  | str (s : String)
  | nonStr (rep : String)
  | null
deriving DecidableEq

/-- `.astype(str)` on one cell (`errors="ignore"` never fires for `str`):
nulls print as `"nan"`, other scalars as their `str()` rendering. -/
def astypeStr : Cell → Cell
  | .str s => .str s
  | .nonStr r => .str r
  | .null => .str "nan"

/-- A pandas DataFrame: ordered column names plus rows of cells (row arity
matches the column count; the table invariant). -/
structure DataFrame where
  columns : List String
  rows : List (List Cell)
deriving DecidableEq

/-- The cell of a row at a column position. -/
def cellAt (row : List Cell) (i : Nat) : Cell := row.getD i Cell.null

/-- `compute` from `enrich_dataframe` (lines 139-148): non-strings and
blank strings short-circuit to the empty string, non-public addresses
short-circuit to the empty string, and only Valid-Public addresses reach
`lookup` + `format_geoip`. -/
def compute (cityB : CityBackend) (asnB : Option AsnBackend) (v : Cell) : String :=
  match v with
  | .nonStr _ => ""
  | .null => ""
  | .str ipVal =>
    let s := pyStrip ipVal
    if s = "" then ""
    else if is_public_ip s = false then ""
    else
      let r := lookup cityB asnB s
      format_geoip r.country_iso r.region r.city r.lat r.lon r.asn r.org

/-- How many backend calls one `lookup` invocation performs: the city
reader is always called once, the ASN reader once when configured. -/
def lookupCalls (asnB : Option AsnBackend) : Nat :=
  1 + (match asnB with | none => 0 | some _ => 1)

/-- `compute` instrumented with the number of backend calls it performs;
its first component is exactly `compute`. -/
def computeLog (cityB : CityBackend) (asnB : Option AsnBackend) (v : Cell) : String × Nat :=
  match v with
  | .nonStr _ => ("", 0)
  | .null => ("", 0)
  | .str ipVal =>
    let s := pyStrip ipVal
    if s = "" then ("", 0)
    else if is_public_ip s = false then ("", 0)
    else
      let r := lookup cityB asnB s
      (format_geoip r.country_iso r.region r.city r.lat r.lon r.asn r.org, lookupCalls asnB)

/-- The fatal errors of the pipeline: `df[ip_col]` raising `KeyError`,
`DataFrame.insert` raising `ValueError` on a duplicate column name
(pandas raises unless `allow_duplicates=True`, which the source never
passes), and the `SystemExit` for a failed auto-detection. -/
inductive Err where
  | columnNotFound
  | schemaCollision
  | ipColumnNotDetected
deriving DecidableEq

/-- Insertion at a position, as `DataFrame.insert(loc, ...)` places a
column and as the row-level projection places the new value. -/
def insertAt (i : Nat) (x : α) (l : List α) : List α := l.take i ++ x :: l.drop i

/-- `enrich_dataframe` (lines 133-164), data part: resolving `df[ip_col]`
fails when the column is absent; the geo series applies `compute` to the
`astype(str)` image of the IP column; `insert` places the new column at
`ip_idx + 1` (raising on a duplicate name); the final `df_out[new_cols]`
reindex is the identity on that layout. -/
def enrich_dataframe (cityB : CityBackend) (asnB : Option AsnBackend) (df : DataFrame)
    (ip_col geoip_col : String) : Except Err DataFrame :=
  if ip_col ∈ df.columns then
    let i := df.columns.indexOf ip_col
    if geoip_col ∈ df.columns then .error .schemaCollision
    else
      .ok ⟨insertAt (i + 1) geoip_col df.columns,
           df.rows.map (fun row =>
             insertAt (i + 1) (Cell.str (compute cityB asnB (astypeStr (cellAt row i)))) row)⟩
  else .error .columnNotFound

/-! ## IP-column auto-detection (`autodetect_ip_col`, lines 51-73) -/

/-- The fixed list of common IP-column names. -/
def commonNames : List String :=
  ["ip", "ip_address", "client_ip", "source_ip", "src_ip", "dst_ip", "remote_ip"]

/-- Model of Python `str.lower()` (ASCII case, which column names use). -/
def pyLower (s : String) : String := String.mk (s.data.map Char.toLower)

/-- Name-phase test: `c.lower() in common`. -/
def nameHit (c : String) : Bool := commonNames.contains (pyLower c)

/-- `dropna().astype(str)` on one cell. -/
def cellNonNull : Cell → Option String
  | .null => none
  | .str s => some s
  | .nonStr r => some r

/-- The sampled values of column `i`: first 1000 rows, first 200 non-null
values, rendered as strings. -/
def phase2vals (df : DataFrame) (i : Nat) : List String :=
  (((df.rows.take 1000).map (fun r => cellAt r i)).filterMap cellNonNull).take 200

/-- How many sampled values parse as IP addresses after stripping. -/
def ipHits (vals : List String) : Nat :=
  vals.countP (fun v => (ip_address (pyStrip v)).isSome)

/-- Sampling-phase test: a non-empty sample of which at least half parses
(`hits / tot >= 0.5`, i.e. `tot <= 2 * hits`). -/
def colQualifies (df : DataFrame) (i : Nat) : Bool :=
  let vals := phase2vals df i
  decide (vals ≠ []) && decide (vals.length ≤ 2 * ipHits vals)

/-- `autodetect_ip_col`: first column whose lowered name is in the common
list; otherwise the first column qualifying by sampling; otherwise none. -/
def autodetect_ip_col (df : DataFrame) : Option String :=
  match df.columns.find? nameHit with
  | some c => some c
  | none => (df.columns.enum.find? (fun p => colQualifies df p.1)).map (fun p => p.2)

/-! ## Stream transformer (`process_all`, lines 167-198) -/

/-- The configuration the pipeline sees: an optional explicit IP column
and the name of the inserted column. -/
structure Config where
  ip_col : Option String
  geoip_col : String
deriving DecidableEq

/-- The logical content of a run: the written table (header plus rows, the
header written once), a fatal error, or no write at all. -/
inductive PRes where
  | ok (columns : List String) (rows : List (List Cell))
  | err (e : Err)
  | noOutput
deriving DecidableEq

/-- Fuel-driven chunking; fuel `l.length` suffices for any size >= 1. -/
def chunksOfAux (s : Nat) : Nat → List α → List (List α)
  | _, [] => []
  | 0, _ :: _ => []
  | f + 1, a :: l => (a :: l).take s :: chunksOfAux s f ((a :: l).drop s)

/-- The row batches `pd.read_csv(..., chunksize=s)` yields. -/
def chunksOf (s : Nat) (l : List α) : List (List α) := chunksOfAux s l.length l

/-- The chunked loop after the first batch: enrich each batch with the
resolved column and append its rows; a fatal error aborts. -/
def runChunksAux (cityB : CityBackend) (asnB : Option AsnBackend) (cols : List String)
    (ipc g : String) : List (List (List Cell)) → Except Err (List (List Cell))
  | [] => .ok []
  | c :: cs =>
    match enrich_dataframe cityB asnB ⟨cols, c⟩ ipc g with
    | .error e => .error e
    | .ok out =>
      match runChunksAux cityB asnB cols ipc g cs with
      | .error e => .error e
      | .ok rest => .ok (out.rows ++ rest)

/-- Whole-table mode: read everything, resolve the IP column (explicit or
auto-detected on the whole table), enrich once, write once. -/
def processWhole (cityB : CityBackend) (asnB : Option AsnBackend) (cfg : Config)
    (df : DataFrame) : PRes :=
  let ipcO := match cfg.ip_col with
    | some c => some c
    | none => autodetect_ip_col df
  match ipcO with
  | none => .err .ipColumnNotDetected
  | some ipc =>
    match enrich_dataframe cityB asnB df ipc cfg.geoip_col with
    | .error e => .err e
    | .ok out => .ok out.columns out.rows

/-- Chunked mode: resolve the IP column on the first batch only (explicit
or auto-detected there), write the header with the first batch, append
every later batch's rows; with no batches nothing is ever written. -/
def processChunked (cityB : CityBackend) (asnB : Option AsnBackend) (cfg : Config)
    (size : Nat) (df : DataFrame) : PRes :=
  match chunksOf size df.rows with
  | [] => .noOutput
  | c1 :: rest =>
    let ipcO := match cfg.ip_col with
      | some c => some c
      | none => autodetect_ip_col ⟨df.columns, c1⟩
    match ipcO with
    | none => .err .ipColumnNotDetected
    | some ipc =>
      match enrich_dataframe cityB asnB ⟨df.columns, c1⟩ ipc cfg.geoip_col with
      | .error e => .err e
      | .ok out1 =>
        match runChunksAux cityB asnB df.columns ipc cfg.geoip_col rest with
        | .error e => .err e
        | .ok restRows => .ok out1.columns (out1.rows ++ restRows)

/-! ## Resource trace model

`enrich_dataframe` opens `Reader(city_db)` and, when configured,
`Reader(asn_db)` at its top, then runs the body inside `try ... finally`
closing both.  Every raise of the body (the `KeyError` for a missing
column, the `ValueError` on a duplicate name) happens inside the `try`,
so one call always emits open events followed by close events; reader
construction itself is a configuration-level failure outside this model. -/

/-- Acquisition and release events of the two database handles. -/
inductive Ev where
  | openCity
  | openAsn
  | closeCity
  | closeAsn
deriving DecidableEq

/-- The events of one `enrich_dataframe` call. -/
def enrichEvents (hasAsn : Bool) : List Ev :=
  [.openCity] ++ (if hasAsn then [.openAsn] else []) ++
  [.closeCity] ++ (if hasAsn then [.closeAsn] else [])

/-- `enrich_dataframe` with its handle trace. -/
def enrichT (cityB : CityBackend) (asnB : Option AsnBackend) (df : DataFrame)
    (ip_col geoip_col : String) : Except Err DataFrame × List Ev :=
  (enrich_dataframe cityB asnB df ip_col geoip_col, enrichEvents asnB.isSome)

/-- The chunked loop after the first batch, with its handle trace; a fatal
error stops the loop (the exception propagates out of `process_all`). -/
def runChunksT (cityB : CityBackend) (asnB : Option AsnBackend) (cols : List String)
    (ipc g : String) : List (List (List Cell)) → Except Err (List (List Cell)) × List Ev
  | [] => (.ok [], [])
  | c :: cs =>
    match enrichT cityB asnB ⟨cols, c⟩ ipc g with
    | (.error e, tr) => (.error e, tr)
    | (.ok out, tr) =>
      match runChunksT cityB asnB cols ipc g cs with
      | (.error e, tr2) => (.error e, tr ++ tr2)
      | (.ok rest, tr2) => (.ok (out.rows ++ rest), tr ++ tr2)

/-- Whole-table mode with its handle trace. -/
def processWholeT (cityB : CityBackend) (asnB : Option AsnBackend) (cfg : Config)
    (df : DataFrame) : PRes × List Ev :=
  let ipcO := match cfg.ip_col with
    | some c => some c
    | none => autodetect_ip_col df
  match ipcO with
  | none => (.err .ipColumnNotDetected, [])
  | some ipc =>
    match enrichT cityB asnB df ipc cfg.geoip_col with
    | (.error e, tr) => (.err e, tr)
    | (.ok out, tr) => (.ok out.columns out.rows, tr)

/-- Chunked mode with its handle trace. -/
def processChunkedT (cityB : CityBackend) (asnB : Option AsnBackend) (cfg : Config)
    (size : Nat) (df : DataFrame) : PRes × List Ev :=
  match chunksOf size df.rows with
  | [] => (.noOutput, [])
  | c1 :: rest =>
    let ipcO := match cfg.ip_col with
      | some c => some c
      | none => autodetect_ip_col ⟨df.columns, c1⟩
    match ipcO with
    | none => (.err .ipColumnNotDetected, [])
    | some ipc =>
      match enrichT cityB asnB ⟨df.columns, c1⟩ ipc cfg.geoip_col with
      | (.error e, tr) => (.err e, tr)
      | (.ok out1, tr) =>
        match runChunksT cityB asnB df.columns ipc cfg.geoip_col rest with
        | (.error e, tr2) => (.err e, tr ++ tr2)
        | (.ok restRows, tr2) => (.ok out1.columns (out1.rows ++ restRows), tr ++ tr2)

/-- Occurrences of one event in a trace. -/
def countEv (e : Ev) (tr : List Ev) : Nat := tr.count e

/-! ## Helper lemmas: stripping and splitting -/

theorem dropWhile_self_idem (p : α → Bool) (l : List α) :
    (l.dropWhile p).dropWhile p = l.dropWhile p := by
  induction l with
  | nil => rfl
  | cons a l ih =>
    cases hp : p a with
    | true => simp [List.dropWhile_cons, hp, ih]
    | false => simp [List.dropWhile_cons, hp]

theorem dropWhile_head_false (p : α → Bool) :
    ∀ {l : List α} {c : α} {r : List α}, l.dropWhile p = c :: r → p c = false := by
  intro l
  induction l with
  | nil => intro c r h; simp at h
  | cons a l ih =>
    intro c r h
    cases hp : p a with
    | true => exact ih (by simpa [List.dropWhile_cons, hp] using h)
    | false =>
      simp [List.dropWhile_cons, hp] at h
      rw [← h.1]; exact hp

theorem pyStrip_idem (s : String) : pyStrip (pyStrip s) = pyStrip s := by
  unfold pyStrip
  show String.mk ((((((s.data.dropWhile pySpace).reverse.dropWhile pySpace).reverse).dropWhile
    pySpace).reverse.dropWhile pySpace).reverse) = _
  set x := s.data.dropWhile pySpace with hx
  set y := x.reverse.dropWhile pySpace with hy
  have hxidem : x.dropWhile pySpace = x := by rw [hx]; exact dropWhile_self_idem _ _
  have hyidem : y.dropWhile pySpace = y := by rw [hy]; exact dropWhile_self_idem _ _
  have hA : y.reverse.dropWhile pySpace = y.reverse := by
    cases hyr : y.reverse with
    | nil => rfl
    | cons c r =>
      have hsplit : x.reverse.takeWhile pySpace ++ y = x.reverse := by
        rw [hy]; exact List.takeWhile_append_dropWhile pySpace x.reverse
      have hxeq0 : x = y.reverse ++ (x.reverse.takeWhile pySpace).reverse := by
        have := congrArg List.reverse hsplit
        simpa [List.reverse_append] using this.symm
      obtain ⟨t, hxeq⟩ : ∃ t, x = y.reverse ++ t := ⟨_, hxeq0⟩
      have hcx : x.dropWhile pySpace = c :: (r ++ t) := by
        rw [hxidem, hxeq, hyr]; simp
      have hc : pySpace c = false := dropWhile_head_false _ hcx
      simp [List.dropWhile_cons, hc]
  rw [hA, List.reverse_reverse, hyidem]

theorem splitChAux_not_mem (sep : Char) :
    ∀ (l acc : List Char), sep ∉ l → splitChAux sep l acc = [acc.reverse ++ l] := by
  intro l
  induction l with
  | nil => intro acc _; simp [splitChAux]
  | cons c cs ih =>
    intro acc h
    have hc : ¬ c = sep := fun hcs => h (hcs ▸ List.mem_cons_self c cs)
    have hcs : sep ∉ cs := fun hm => h (List.mem_cons_of_mem c hm)
    simp only [splitChAux, if_neg hc, ih (c :: acc) hcs]
    simp

theorem splitChAux_sep (sep : Char) :
    ∀ (l1 l2 acc : List Char), sep ∉ l1 →
      splitChAux sep (l1 ++ sep :: l2) acc = (acc.reverse ++ l1) :: splitChAux sep l2 [] := by
  intro l1
  induction l1 with
  | nil => intro l2 acc _; simp [splitChAux]
  | cons c cs ih =>
    intro l2 acc h
    have hc : ¬ c = sep := fun hcs => h (hcs ▸ List.mem_cons_self c cs)
    have hcs : sep ∉ cs := fun hm => h (List.mem_cons_of_mem c hm)
    have step : splitChAux sep ((c :: cs) ++ sep :: l2) acc =
        splitChAux sep (cs ++ sep :: l2) (c :: acc) := by
      simp [splitChAux, hc]
    rw [step, ih l2 (c :: acc) hcs]
    simp

theorem string_mk_data (s : String) : String.mk s.data = s := by
  cases s; rfl

theorem splitPipe_cons (s t : String) (h : '|' ∉ s.data) :
    splitPipe (s ++ ("|" ++ t)) = s :: splitPipe t := by
  unfold splitPipe
  have hdata : (s ++ ("|" ++ t)).data = s.data ++ '|' :: t.data := by
    simp [String.data_append]
  rw [hdata, splitChAux_sep '|' s.data t.data [] h]
  simp [string_mk_data]

theorem splitPipe_single (s : String) (h : '|' ∉ s.data) : splitPipe s = [s] := by
  unfold splitPipe
  rw [splitChAux_not_mem '|' s.data [] h]
  simp [string_mk_data]

/-! ## Helper lemmas: decimal rendering -/

theorem digitChar_isDigit (d : Nat) : (digitChar d).isDigit = true := by
  unfold digitChar
  have h : d % 10 = 0 ∨ d % 10 = 1 ∨ d % 10 = 2 ∨ d % 10 = 3 ∨ d % 10 = 4 ∨
      d % 10 = 5 ∨ d % 10 = 6 ∨ d % 10 = 7 ∨ d % 10 = 8 ∨ d % 10 = 9 := by omega
  rcases h with h|h|h|h|h|h|h|h|h|h <;> simp only [h] <;> decide

theorem isDigit_ne_pipe {c : Char} (h : c.isDigit = true) : c ≠ '|' := by
  intro he; rw [he] at h; exact absurd h (by decide)

theorem natStrAux_digits :
    ∀ (f n : Nat), ∀ c ∈ natStrAux f n, c.isDigit = true := by
  intro f
  induction f with
  | zero => intro n c h; simp [natStrAux] at h
  | succ f ih =>
    intro n c h
    by_cases hn : n < 10
    · simp [natStrAux, hn] at h
      rw [h]; exact digitChar_isDigit n
    · simp [natStrAux, hn] at h
      rcases h with h | h
      · exact ih _ _ h
      · rw [h]; exact digitChar_isDigit _

theorem natStr_digits (n : Nat) : ∀ c ∈ natStr n, c.isDigit = true :=
  natStrAux_digits (n + 1) n

theorem pad6_digits (m : Nat) : ∀ c ∈ pad6 m, c.isDigit = true := by
  intro c h
  simp [pad6] at h
  rcases h with h|h|h|h|h|h <;> (rw [h]; exact digitChar_isDigit _)

theorem formatFixed6_data (q : ℚ) :
    ∃ pre frac : List Char, (formatFixed6 q).data = pre ++ '.' :: frac ∧ frac.length = 6 ∧
      (∀ c ∈ frac, c.isDigit = true) ∧ (∀ c ∈ pre, c = '-' ∨ c.isDigit = true) := by
  unfold formatFixed6
  set s := roundHalfEven (q.num * 1000000) (q.den : ℤ) with hs
  refine ⟨(if s < 0 ∨ (s = 0 ∧ q.num < 0) then ['-'] else []) ++ natStr (s.natAbs / 1000000),
    pad6 (s.natAbs % 1000000), by simp, by simp [pad6], pad6_digits _, ?_⟩
  intro c hc
  rcases List.mem_append.mp hc with h | h
  · left
    split at h
    · simpa using h
    · simp at h
  · right
    exact natStr_digits _ c h

theorem formatFixed6_no_pipe (q : ℚ) : '|' ∉ (formatFixed6 q).data := by
  obtain ⟨pre, frac, hdata, _, hfrac, hpre⟩ := formatFixed6_data q
  rw [hdata]
  intro hmem
  rcases List.mem_append.mp hmem with h | h
  · rcases hpre _ h with h1 | h1
    · exact absurd h1 (by decide)
    · exact absurd h1 (by decide)
  · rcases List.mem_cons.mp h with h1 | h1
    · exact absurd h1 (by decide)
    · exact absurd (hfrac _ h1) (by decide)

theorem asSlot_no_pipe (n : Nat) : '|' ∉ ("AS" ++ String.mk (natStr n)).data := by
  rw [String.data_append]
  intro hmem
  rcases List.mem_append.mp hmem with h | h
  · exact absurd h (by decide)
  · exact absurd (natStr_digits n _ h) (by decide)

theorem splitPipe_join7 (a b c d e f g : String)
    (ha : '|' ∉ a.data) (hb : '|' ∉ b.data) (hc : '|' ∉ c.data) (hd : '|' ∉ d.data)
    (he : '|' ∉ e.data) (hf : '|' ∉ f.data) (hg : '|' ∉ g.data) :
    splitPipe (a ++ "|" ++ b ++ "|" ++ c ++ "|" ++ d ++ "|" ++ e ++ "|" ++ f ++ "|" ++ g) =
      [a, b, c, d, e, f, g] := by
  have h1 : a ++ "|" ++ b ++ "|" ++ c ++ "|" ++ d ++ "|" ++ e ++ "|" ++ f ++ "|" ++ g =
      a ++ ("|" ++ (b ++ ("|" ++ (c ++ ("|" ++ (d ++ ("|" ++ (e ++ ("|" ++ (f ++ ("|" ++ g))))))))))) := by
    simp [String.append_assoc]
  rw [h1, splitPipe_cons a _ ha, splitPipe_cons b _ hb, splitPipe_cons c _ hc,
    splitPipe_cons d _ hd, splitPipe_cons e _ he, splitPipe_cons f _ hf, splitPipe_single g hg]

/-! ## Helper lemmas: list insertion and chunking -/

theorem indexOf_append_cons [DecidableEq α] (p : List α) (a : α) (s : List α) (h : a ∉ p) :
    (p ++ a :: s).indexOf a = p.length := by
  induction p with
  | nil => simp [List.indexOf_cons_self]
  | cons x p ih =>
    have hxa : x ≠ a := fun he => h (he ▸ List.mem_cons_self x p)
    have hp : a ∉ p := fun hm => h (List.mem_cons_of_mem x hm)
    simp [List.indexOf_cons_ne _ hxa, ih hp, Nat.succ_eq_add_one]

theorem insertAt_append_cons (p : List α) (a : α) (s : List α) (x : α) :
    insertAt (p.length + 1) x (p ++ a :: s) = p ++ a :: x :: s := by
  induction p with
  | nil => simp [insertAt]
  | cons y p ih =>
    have step : insertAt ((y :: p).length + 1) x ((y :: p) ++ a :: s) =
        y :: insertAt (p.length + 1) x (p ++ a :: s) := by
      simp [insertAt]
    rw [step, ih]
    simp

theorem eraseIdx_insertAt (x : α) :
    ∀ (i : Nat) (l : List α), i ≤ l.length → (insertAt i x l).eraseIdx i = l := by
  intro i
  induction i with
  | zero => intro l _; simp [insertAt]
  | succ i ih =>
    intro l h
    cases l with
    | nil => simp at h
    | cons y l' =>
      have h' : i ≤ l'.length := by simpa using h
      have step : insertAt (i + 1) x (y :: l') = y :: insertAt i x l' := by
        simp [insertAt]
      rw [step, List.eraseIdx_cons_succ, ih l' h']

theorem chunksOfAux_flatten (s : Nat) (hs : 1 ≤ s) :
    ∀ (f : Nat) (l : List α), l.length ≤ f → (chunksOfAux s f l).flatten = l := by
  intro f
  induction f with
  | zero =>
    intro l h
    cases l with
    | nil => rfl
    | cons a l' => simp at h
  | succ f ih =>
    intro l h
    cases l with
    | nil => rfl
    | cons a l' =>
      have hlen : ((a :: l').drop s).length ≤ f := by
        simp only [List.length_drop, List.length_cons] at h ⊢
        omega
      simp only [chunksOfAux, List.flatten_cons, ih _ hlen, List.take_append_drop]

theorem chunksOf_flatten (s : Nat) (hs : 1 ≤ s) (l : List α) : (chunksOf s l).flatten = l :=
  chunksOfAux_flatten s hs l.length l le_rfl

theorem chunksOf_ne_nil (s : Nat) (l : List α) (h : l ≠ []) : chunksOf s l ≠ [] := by
  cases l with
  | nil => exact absurd rfl h
  | cons a l' => simp [chunksOf, chunksOfAux]

/-! ## Helper lemmas: enrichment -/

theorem enrich_ok (cityB : CityBackend) (asnB : Option AsnBackend) (df : DataFrame)
    (ipc g : String) (h1 : ipc ∈ df.columns) (h2 : g ∉ df.columns) :
    enrich_dataframe cityB asnB df ipc g =
      .ok ⟨insertAt (df.columns.indexOf ipc + 1) g df.columns,
        df.rows.map (fun row => insertAt (df.columns.indexOf ipc + 1)
          (Cell.str (compute cityB asnB (astypeStr (cellAt row (df.columns.indexOf ipc))))) row)⟩ := by
  simp [enrich_dataframe, h1, h2]

theorem enrich_err_col (cityB : CityBackend) (asnB : Option AsnBackend) (df : DataFrame)
    (ipc g : String) (h : ipc ∉ df.columns) :
    enrich_dataframe cityB asnB df ipc g = .error .columnNotFound := by
  simp [enrich_dataframe, h]

theorem enrich_err_coll (cityB : CityBackend) (asnB : Option AsnBackend) (df : DataFrame)
    (ipc g : String) (h1 : ipc ∈ df.columns) (h2 : g ∈ df.columns) :
    enrich_dataframe cityB asnB df ipc g = .error .schemaCollision := by
  simp [enrich_dataframe, h1, h2]

theorem runChunksAux_ok (cityB : CityBackend) (asnB : Option AsnBackend) (cols : List String)
    (ipc g : String) (h1 : ipc ∈ cols) (h2 : g ∉ cols) :
    ∀ chunks : List (List (List Cell)),
      runChunksAux cityB asnB cols ipc g chunks =
        .ok (chunks.map (List.map (fun row => insertAt (cols.indexOf ipc + 1)
          (Cell.str (compute cityB asnB (astypeStr (cellAt row (cols.indexOf ipc))))) row))).flatten := by
  intro chunks
  induction chunks with
  | nil => rfl
  | cons c cs ih =>
    simp only [runChunksAux]
    rw [enrich_ok cityB asnB ⟨cols, c⟩ ipc g h1 h2, ih]
    simp

/-! ## Helper lemmas: handle traces -/

theorem countEv_append (e : Ev) (a b : List Ev) :
    countEv e (a ++ b) = countEv e a + countEv e b :=
  List.count_append e a b

theorem enrichEvents_counts (b : Bool) :
    countEv .openCity (enrichEvents b) = 1 ∧ countEv .closeCity (enrichEvents b) = 1 ∧
    countEv .openAsn (enrichEvents b) = countEv .closeAsn (enrichEvents b) := by
  cases b <;> exact ⟨rfl, rfl, rfl⟩

theorem runChunksT_balance (cityB : CityBackend) (asnB : Option AsnBackend)
    (cols : List String) (ipc g : String) :
    ∀ chunks,
      countEv .closeCity (runChunksT cityB asnB cols ipc g chunks).2 =
        countEv .openCity (runChunksT cityB asnB cols ipc g chunks).2 ∧
      countEv .closeAsn (runChunksT cityB asnB cols ipc g chunks).2 =
        countEv .openAsn (runChunksT cityB asnB cols ipc g chunks).2 := by
  intro chunks
  induction chunks with
  | nil => exact ⟨rfl, rfl⟩
  | cons c cs ih =>
    obtain ⟨hopen, hclose, hasn⟩ := enrichEvents_counts (asnB.isSome)
    simp only [runChunksT, enrichT]
    cases henr : enrich_dataframe cityB asnB ⟨cols, c⟩ ipc g with
    | error e => exact ⟨hclose.trans hopen.symm, hasn.symm⟩
    | ok out =>
      rcases hrec : runChunksT cityB asnB cols ipc g cs with ⟨res, tr2⟩
      rw [hrec] at ih
      cases res with
      | error e =>
        simp only [countEv_append]
        exact ⟨by rw [hclose, hopen, ih.1], by rw [hasn, ih.2]⟩
      | ok rest =>
        simp only [countEv_append]
        exact ⟨by rw [hclose, hopen, ih.1], by rw [hasn, ih.2]⟩

theorem runChunksT_ok_opens (cityB : CityBackend) (asnB : Option AsnBackend)
    (cols : List String) (ipc g : String) :
    ∀ chunks rows, (runChunksT cityB asnB cols ipc g chunks).1 = .ok rows →
      countEv .openCity (runChunksT cityB asnB cols ipc g chunks).2 = chunks.length := by
  intro chunks
  induction chunks with
  | nil => intro rows _; rfl
  | cons c cs ih =>
    intro rows hok
    obtain ⟨hopen, _, _⟩ := enrichEvents_counts (asnB.isSome)
    simp only [runChunksT, enrichT] at hok ⊢
    cases henr : enrich_dataframe cityB asnB ⟨cols, c⟩ ipc g with
    | error e => rw [henr] at hok; simp at hok
    | ok out =>
      rcases hrec : runChunksT cityB asnB cols ipc g cs with ⟨res, tr2⟩
      cases res with
      | error e => rw [henr, hrec] at hok; simp at hok
      | ok rest =>
        have hih := ih rest (by rw [hrec])
        rw [hrec] at hih
        simp only at hih
        simp only [countEv_append, hopen, List.length_cons]
        rw [hih]
        omega

/-! ## Claim theorems -/

/-- C9: the IP classifier is a pure, deterministic function of the input
string that trims surrounding whitespace before parsing and assigns every
string exactly one of three classes: Invalid for the empty string or any
unparsable address; Valid-Non-Routable for any parsed IPv4 or IPv6
address in a private, loopback, reserved, link-local, or multicast
range; Valid-Public for every other syntactically valid address.  The
source's `is_public_ip` agrees: it is true exactly on Valid-Public. -/
theorem classify_three_way :
    (∀ ip, nonRoutable ip = (is_private ip || is_loopback ip || is_reserved ip ||
      is_link_local ip || is_multicast ip)) ∧
    (∀ s, classify s = IPClass.invalid ↔ ip_address (pyStrip s) = none) ∧
    (∀ s, classify s = IPClass.validNonRoutable ↔ ∃ ip, ip_address (pyStrip s) = some ip ∧
      nonRoutable ip = true) ∧
    (∀ s, classify s = IPClass.validPublic ↔ ∃ ip, ip_address (pyStrip s) = some ip ∧
      nonRoutable ip = false) ∧
    (∀ s, is_public_ip s = true ↔ classify s = IPClass.validPublic) ∧
    (∀ s, classify (pyStrip s) = classify s) ∧
    classify "" = IPClass.invalid := by
  refine ⟨fun _ => rfl, ?_, ?_, ?_, ?_, ?_, by decide⟩
  · intro s
    unfold classify
    cases h : ip_address (pyStrip s) with
    | none => simp
    | some ip => cases hn : nonRoutable ip <;> simp [hn]
  · intro s
    cases h : ip_address (pyStrip s) with
    | none => simp [classify, h]
    | some ip => cases hn : nonRoutable ip <;> simp [classify, h, hn]
  · intro s
    cases h : ip_address (pyStrip s) with
    | none => simp [classify, h]
    | some ip => cases hn : nonRoutable ip <;> simp [classify, h, hn]
  · intro s
    cases h : ip_address (pyStrip s) with
    | none => simp [is_public_ip, classify, h]
    | some ip =>
      cases hn : nonRoutable ip with
      | true => simp [is_public_ip, classify, h, hn, show
          (is_private ip || is_loopback ip || is_reserved ip || is_link_local ip ||
            is_multicast ip) = true from hn]
      | false => simp [is_public_ip, classify, h, hn, show
          (is_private ip || is_loopback ip || is_reserved ip || is_link_local ip ||
            is_multicast ip) = false from hn]
  · intro s
    unfold classify
    rw [pyStrip_idem]

/-- C7: for every address classified Valid-Non-Routable, the per-row
computation performs zero backend calls (for arbitrary backends) and
emits the empty string. -/
theorem compute_nonroutable_empty_no_calls :
    ∀ (cityB : CityBackend) (asnB : Option AsnBackend) (s : String),
      classify s = IPClass.validNonRoutable →
      computeLog cityB asnB (Cell.str s) = ("", 0) ∧ compute cityB asnB (Cell.str s) = "" := by
  intro cityB asnB s h
  unfold classify at h
  cases hp : ip_address (pyStrip s) with
  | none => rw [hp] at h; simp at h
  | some ip =>
    rw [hp] at h
    cases hn : nonRoutable ip with
    | false => simp [hn] at h
    | true =>
      have hne : pyStrip s ≠ "" := by
        intro he
        rw [he] at hp
        have h0 : ip_address "" = none := by decide
        rw [h0] at hp
        exact Option.noConfusion hp
      have hpub : is_public_ip (pyStrip s) = false := by
        unfold is_public_ip
        rw [pyStrip_idem, hp]
        unfold nonRoutable at hn
        simp [hn]
      exact ⟨by simp [computeLog, hne, hpub], by simp [compute, hne, hpub]⟩

/-- C7 witness: a private address (10.0.0.1) with concrete backends makes
zero backend calls and emits the empty string. -/
theorem compute_nonroutable_empty_no_calls_witness :
    computeLog (fun _ => Except.error ()) none (Cell.str "10.0.0.1") = ("", 0) ∧
    compute (fun _ => Except.error ()) none (Cell.str "10.0.0.1") = "" :=
  compute_nonroutable_empty_no_calls (fun _ => Except.error ()) none "10.0.0.1" (by decide)

/-- C1: every non-string, blank, or Invalid cell value makes the per-row
computation emit the empty string without raising; in particular the
literal "not-an-ip" emits "" — the configured invalid marker is never
consulted, since neither `compute` nor `enrich_dataframe` receives the
keep-invalid option (the code drops it after argument parsing). -/
theorem compute_invalid_empty_ignores_marker :
    (∀ (cityB : CityBackend) (asnB : Option AsnBackend) (s : String),
      classify s = IPClass.invalid → compute cityB asnB (Cell.str s) = "") ∧
    (∀ (cityB : CityBackend) (asnB : Option AsnBackend) (rep : String),
      compute cityB asnB (Cell.nonStr rep) = "" ∧ compute cityB asnB Cell.null = "") ∧
    compute (fun _ => Except.error ()) none (Cell.str "not-an-ip") = "" ∧
    compute (fun _ => Except.error ()) none (Cell.str "   ") = "" := by
  refine ⟨?_, fun _ _ _ => ⟨rfl, rfl⟩, by decide, by decide⟩
  intro cityB asnB s h
  unfold classify at h
  cases hp : ip_address (pyStrip s) with
  | some ip =>
    rw [hp] at h
    cases hn : nonRoutable ip <;> simp [hn] at h
  | none =>
    by_cases he : pyStrip s = ""
    · simp [compute, he]
    · have hpub : is_public_ip (pyStrip s) = false := by
        unfold is_public_ip
        rw [pyStrip_idem, hp]
      simp [compute, he, hpub]

/-- C5: the two backend calls are independently fault-tolerant: the
ownership fields never depend on the city backend and the location
fields never depend on the ASN backend; a city failure yields five empty
location fields (the ASN backend is still consulted, per the
independence conjunct); a failing or absent ASN backend yields empty
asn/org; and `lookup` is a total function, so no per-IP exception
escapes it. -/
theorem lookup_fault_tolerant :
    (∀ (cityB cityB' : CityBackend) (asnB : Option AsnBackend) (ip : String),
      (lookup cityB asnB ip).asn = (lookup cityB' asnB ip).asn ∧
      (lookup cityB asnB ip).org = (lookup cityB' asnB ip).org) ∧
    (∀ (cityB : CityBackend) (asnB asnB' : Option AsnBackend) (ip : String),
      locFields (lookup cityB asnB ip) = locFields (lookup cityB asnB' ip)) ∧
    (∀ (cityB : CityBackend) (asnB : Option AsnBackend) (ip : String),
      cityB ip = .error () → locFields (lookup cityB asnB ip) = (none, none, none, none, none)) ∧
    (∀ (cityB : CityBackend) (f : AsnBackend) (ip : String), f ip = .error () →
      (lookup cityB (some f) ip).asn = none ∧ (lookup cityB (some f) ip).org = none) ∧
    (∀ (cityB : CityBackend) (ip : String),
      (lookup cityB none ip).asn = none ∧ (lookup cityB none ip).org = none) := by
  refine ⟨?_, ?_, ?_, ?_, ?_⟩
  · intro cityB cityB' asnB ip
    rcases asnB with _ | f
    · cases h : cityB ip <;> cases h' : cityB' ip <;> simp [lookup, h, h']
    · cases hf : f ip <;> cases h : cityB ip <;> cases h' : cityB' ip <;>
        simp [lookup, h, h', hf]
  · intro cityB asnB asnB' ip
    rcases asnB with _ | f <;> rcases asnB' with _ | f'
    · rfl
    · cases hf' : f' ip <;> cases h : cityB ip <;> simp [lookup, locFields, h, hf']
    · cases hf : f ip <;> cases h : cityB ip <;> simp [lookup, locFields, h, hf]
    · cases hf : f ip <;> cases hf' : f' ip <;> cases h : cityB ip <;>
        simp [lookup, locFields, h, hf, hf']
  · intro cityB asnB ip h
    rcases asnB with _ | f
    · simp [lookup, locFields, h]
    · cases hf : f ip <;> simp [lookup, locFields, h, hf]
  · intro cityB f ip h
    cases hc : cityB ip <;> simp [lookup, h, hc]
  · intro cityB ip
    cases hc : cityB ip <;> simp [lookup, hc]

/-- C5 witness: with a failing city backend and a failing ASN backend on
a concrete address, the location fields are all empty and the ownership
fields are empty. -/
theorem lookup_fault_tolerant_witness :
    locFields (lookup (fun _ => Except.error ()) (some (fun _ => Except.error ())) "8.8.8.8") =
      (none, none, none, none, none) ∧
    (lookup (fun _ => Except.error ()) (some (fun _ => Except.error ())) "8.8.8.8").asn = none :=
  ⟨lookup_fault_tolerant.2.2.1 (fun _ => Except.error ())
      (some (fun _ => Except.error ())) "8.8.8.8" rfl,
    (lookup_fault_tolerant.2.2.2.1 (fun _ => Except.error ())
      (fun _ => Except.error ()) "8.8.8.8" rfl).1⟩

/-- C4: when the configured new-column name already exists in the input
schema, `enrich_dataframe` aborts with an error and never returns an
output table: pandas `DataFrame.insert` raises `ValueError` for a
duplicate column (`allow_duplicates` defaults to false), which the
source never catches; when the IP column also resolves, the error is
precisely the schema collision. -/
theorem enrich_collision_abort :
    ∀ (cityB : CityBackend) (asnB : Option AsnBackend) (df : DataFrame) (ipc g : String),
      g ∈ df.columns →
      (∀ out, enrich_dataframe cityB asnB df ipc g ≠ Except.ok out) ∧
      (ipc ∈ df.columns → enrich_dataframe cityB asnB df ipc g = .error .schemaCollision) := by
  intro cityB asnB df ipc g hg
  by_cases hip : ipc ∈ df.columns
  · rw [enrich_err_coll cityB asnB df ipc g hip hg]
    exact ⟨fun out h => Except.noConfusion h, fun _ => rfl⟩
  · rw [enrich_err_col cityB asnB df ipc g hip]
    exact ⟨fun out h => Except.noConfusion h, fun h => absurd h hip⟩

/-- C4 witness: inserting the default name `geoip` into a schema that
already has a `geoip` column aborts with the collision error. -/
theorem enrich_collision_abort_witness :
    (∀ out, enrich_dataframe (fun _ => Except.error ()) none ⟨["ip", "geoip"], []⟩ "ip" "geoip" ≠
      Except.ok out) ∧
    ("ip" ∈ (⟨["ip", "geoip"], []⟩ : DataFrame).columns →
      enrich_dataframe (fun _ => Except.error ()) none ⟨["ip", "geoip"], []⟩ "ip" "geoip" =
        .error .schemaCollision) :=
  enrich_collision_abort (fun _ => Except.error ()) none ⟨["ip", "geoip"], []⟩ "ip" "geoip"
    (by decide)

/-- C3 (amended): `format_geoip` is total and emits the `|`-join of
exactly seven slots in the fixed order {country, region, city, lat, lon,
asn, org}; splitting on `|` yields exactly those seven parts whenever no
present string field itself contains a `'|'` character (a stored value
containing `'|'` yields more parts — see the counterexample); absent
fields render as the empty string, present coordinates render with
exactly six fractional digits, and a present asn renders as `AS`
followed by its decimal digits. -/
theorem format_geoip_seven_slots :
    ∀ r : LookupResult,
      (∀ x, r.country_iso = some x → '|' ∉ x.data) →
      (∀ x, r.region = some x → '|' ∉ x.data) →
      (∀ x, r.city = some x → '|' ∉ x.data) →
      (∀ x, r.org = some x → '|' ∉ x.data) →
      splitPipe (format_geoip r.country_iso r.region r.city r.lat r.lon r.asn r.org) =
        [r.country_iso.getD "", r.region.getD "", r.city.getD "",
         (match r.lat with | some q => formatFixed6 q | none => ""),
         (match r.lon with | some q => formatFixed6 q | none => ""),
         (match r.asn with | some n => "AS" ++ String.mk (natStr n) | none => ""),
         r.org.getD ""] ∧
      (splitPipe (format_geoip r.country_iso r.region r.city r.lat r.lon r.asn r.org)).length
        = 7 ∧
      (∀ q : ℚ, ∃ pre frac : List Char, (formatFixed6 q).data = pre ++ '.' :: frac ∧
        frac.length = 6 ∧ (∀ c ∈ frac, c.isDigit = true) ∧
        (∀ c ∈ pre, c = '-' ∨ c.isDigit = true)) := by
  intro r h1 h2 h3 h4
  have hs0 : '|' ∉ (r.country_iso.getD "").data := by
    cases hc : r.country_iso with
    | none => simp
    | some x => simpa using h1 x hc
  have hs1 : '|' ∉ (r.region.getD "").data := by
    cases hc : r.region with
    | none => simp
    | some x => simpa using h2 x hc
  have hs2 : '|' ∉ (r.city.getD "").data := by
    cases hc : r.city with
    | none => simp
    | some x => simpa using h3 x hc
  have hs3 : '|' ∉ (match r.lat with | some q => formatFixed6 q | none => "").data := by
    cases r.lat with
    | none => simp
    | some q => exact formatFixed6_no_pipe q
  have hs4 : '|' ∉ (match r.lon with | some q => formatFixed6 q | none => "").data := by
    cases r.lon with
    | none => simp
    | some q => exact formatFixed6_no_pipe q
  have hs5 : '|' ∉ (match r.asn with
      | some n => "AS" ++ String.mk (natStr n)
      | none => "").data := by
    cases r.asn with
    | none => simp
    | some n => exact asSlot_no_pipe n
  have hs6 : '|' ∉ (r.org.getD "").data := by
    cases hc : r.org with
    | none => simp
    | some x => simpa using h4 x hc
  have hmain : splitPipe (format_geoip r.country_iso r.region r.city r.lat r.lon r.asn r.org) =
      [r.country_iso.getD "", r.region.getD "", r.city.getD "",
       (match r.lat with | some q => formatFixed6 q | none => ""),
       (match r.lon with | some q => formatFixed6 q | none => ""),
       (match r.asn with | some n => "AS" ++ String.mk (natStr n) | none => ""),
       r.org.getD ""] := by
    unfold format_geoip
    exact splitPipe_join7 _ _ _ _ _ _ _ hs0 hs1 hs2 hs3 hs4 hs5 hs6
  refine ⟨hmain, by rw [hmain]; rfl, formatFixed6_data⟩

/-- C3 counterexample: a LookupResult whose org field itself contains a
`'|'` makes the encoded field split into eight parts, not seven. -/
theorem format_geoip_eight_parts :
    (splitPipe (format_geoip none none none none none none (some "a|b"))).length ≠ 7 := by
  decide

/-- C3 witness: the spec's own example values (country US, coordinates
37.751 / -97.822, everything else absent) split into exactly the seven
expected parts. -/
theorem format_geoip_seven_slots_witness :
    splitPipe (format_geoip (some "US") none none (some (mkRat 37751 1000))
        (some (mkRat (-97822) 1000)) none none) =
      ["US", "", "", "37.751000", "-97.822000", "", ""] := by
  have h := format_geoip_seven_slots
    ⟨some "US", none, none, some (mkRat 37751 1000), some (mkRat (-97822) 1000), none, none⟩
    (by intro x hx; simp at hx; subst hx; decide)
    (by intro x hx; simp at hx)
    (by intro x hx; simp at hx)
    (by intro x hx; simp at hx)
  exact h.1.trans (by decide)

/-- C8: for every schema of the form `p ++ [ipc] ++ s` (the target's first
occurrence at index `p.length`) and a fresh new-column name, enrichment
succeeds; the output schema is the input schema with exactly the new
name inserted at index+1 (so removing that position recovers the input
schema); each output row is its input row with exactly the computed
value inserted at that same position, and removing that position from
every output row recovers the input rows unchanged. -/
theorem enrich_insert_position :
    ∀ (cityB : CityBackend) (asnB : Option AsnBackend) (df : DataFrame)
      (p s : List String) (ipc g : String),
      df.columns = p ++ ipc :: s → ipc ∉ p → g ∉ df.columns →
      ∃ out, enrich_dataframe cityB asnB df ipc g = .ok out ∧
        out.columns = p ++ ipc :: g :: s ∧
        out.columns.eraseIdx (p.length + 1) = df.columns ∧
        out.rows = df.rows.map (fun row => insertAt (p.length + 1)
          (Cell.str (compute cityB asnB (astypeStr (cellAt row p.length)))) row) ∧
        ((∀ row ∈ df.rows, row.length = df.columns.length) →
          out.rows.map (fun r => r.eraseIdx (p.length + 1)) = df.rows) := by
  intro cityB asnB df p s ipc g hcols hnp hg
  have hmem : ipc ∈ df.columns := by
    rw [hcols]; exact List.mem_append_right _ (List.mem_cons_self _ _)
  have hidx : df.columns.indexOf ipc = p.length := by
    rw [hcols]; exact indexOf_append_cons p ipc s hnp
  refine ⟨_, enrich_ok cityB asnB df ipc g hmem hg, ?_, ?_, ?_, ?_⟩
  · show insertAt (df.columns.indexOf ipc + 1) g df.columns = _
    rw [hidx, hcols]
    exact insertAt_append_cons p ipc s g
  · show (insertAt (df.columns.indexOf ipc + 1) g df.columns).eraseIdx (p.length + 1) =
      df.columns
    rw [hidx]
    apply eraseIdx_insertAt
    rw [hcols]
    simp [List.length_append]
  · rw [hidx]
  · intro har
    show (df.rows.map (fun row => insertAt (df.columns.indexOf ipc + 1)
      (Cell.str (compute cityB asnB (astypeStr (cellAt row (df.columns.indexOf ipc)))))
        row)).map (fun r => r.eraseIdx (p.length + 1)) = df.rows
    rw [hidx, List.map_map]
    have hcong : ∀ row ∈ df.rows,
        ((fun r => List.eraseIdx r (p.length + 1)) ∘ (fun row => insertAt (p.length + 1)
          (Cell.str (compute cityB asnB (astypeStr (cellAt row p.length)))) row)) row
          = id row := by
      intro row hr
      show (insertAt (p.length + 1) _ row).eraseIdx (p.length + 1) = row
      apply eraseIdx_insertAt
      rw [har row hr, hcols]
      simp [List.length_append]
    rw [List.map_congr_left hcong, List.map_id]

/-- C8 witness: for the spec's example schema `[a, ip, b, c]` inserting
`geoip` after `ip` yields `[a, ip, geoip, b, c]`, the rows gaining
exactly the computed cell at that position. -/
theorem enrich_insert_position_witness :
    ∃ out, enrich_dataframe (fun _ => Except.error ()) none
        ⟨["a", "ip", "b", "c"], [[Cell.str "x", Cell.str "10.0.0.1", Cell.str "y", Cell.str "z"]]⟩
        "ip" "geoip" = .ok out ∧
      out.columns = ["a"] ++ "ip" :: "geoip" :: ["b", "c"] ∧
      out.columns.eraseIdx (["a"].length + 1) =
        (⟨["a", "ip", "b", "c"],
          [[Cell.str "x", Cell.str "10.0.0.1", Cell.str "y", Cell.str "z"]]⟩ : DataFrame).columns ∧
      out.rows = (⟨["a", "ip", "b", "c"],
          [[Cell.str "x", Cell.str "10.0.0.1", Cell.str "y", Cell.str "z"]]⟩ :
            DataFrame).rows.map (fun row => insertAt (["a"].length + 1)
        (Cell.str (compute (fun _ => Except.error ()) none
          (astypeStr (cellAt row ["a"].length)))) row) ∧
      ((∀ row ∈ (⟨["a", "ip", "b", "c"],
          [[Cell.str "x", Cell.str "10.0.0.1", Cell.str "y", Cell.str "z"]]⟩ :
            DataFrame).rows, row.length = (⟨["a", "ip", "b", "c"],
          [[Cell.str "x", Cell.str "10.0.0.1", Cell.str "y", Cell.str "z"]]⟩ :
            DataFrame).columns.length) →
        out.rows.map (fun r => r.eraseIdx (["a"].length + 1)) =
          (⟨["a", "ip", "b", "c"],
            [[Cell.str "x", Cell.str "10.0.0.1", Cell.str "y", Cell.str "z"]]⟩ :
              DataFrame).rows) :=
  enrich_insert_position (fun _ => Except.error ()) none
    ⟨["a", "ip", "b", "c"], [[Cell.str "x", Cell.str "10.0.0.1", Cell.str "y", Cell.str "z"]]⟩
    ["a"] ["b", "c"] "ip" "geoip" rfl (by decide) (by decide)

/-- C6: auto-detection first scans column names case-insensitively
against the fixed common-name list and returns the first match in schema
order without looking at any row (the result is independent of the
rows); for schema [user, client_ip, ts] this yields client_ip; only when
no name matches does it sample — at most the first 1000 rows (the result
depends only on them) and the first 200 non-null values per column,
picking the first column, in schema order, where at least half of the
sampled values parse (the `tot <= 2 * hits` test is exactly
`hits / tot >= 1/2`); when no column qualifies the run fails with the
IP-column-not-detected error. -/
theorem autodetect_two_phase :
    (∀ (cols : List String) (rows rows' : List (List Cell)), (∃ c ∈ cols, nameHit c = true) →
      autodetect_ip_col ⟨cols, rows⟩ = cols.find? nameHit ∧
      autodetect_ip_col ⟨cols, rows⟩ = autodetect_ip_col ⟨cols, rows'⟩) ∧
    (∀ rows, autodetect_ip_col ⟨["user", "client_ip", "ts"], rows⟩ = some "client_ip") ∧
    (∀ df : DataFrame, autodetect_ip_col df = autodetect_ip_col ⟨df.columns, df.rows.take 1000⟩) ∧
    (∀ df : DataFrame, (∀ c ∈ df.columns, nameHit c = false) →
      autodetect_ip_col df =
        (df.columns.enum.find? (fun q => colQualifies df q.1)).map (fun q => q.2)) ∧
    (∀ h t : Nat, 0 < t → (t ≤ 2 * h ↔ (1/2 : ℚ) ≤ (h : ℚ) / t)) ∧
    (∀ (cityB : CityBackend) (asnB : Option AsnBackend) (g : String) (df : DataFrame),
      autodetect_ip_col df = none →
      processWhole cityB asnB ⟨none, g⟩ df = PRes.err Err.ipColumnNotDetected) := by
  refine ⟨?_, ?_, ?_, ?_, ?_, ?_⟩
  · intro cols rows rows' hex
    have hsome : (cols.find? nameHit).isSome := by
      rw [List.find?_isSome]
      obtain ⟨c, hc, hhit⟩ := hex
      exact ⟨c, hc, hhit⟩
    obtain ⟨c, hfind⟩ := Option.isSome_iff_exists.mp hsome
    exact ⟨by simp [autodetect_ip_col, hfind], by simp [autodetect_ip_col, hfind]⟩
  · intro rows
    have hfind : (["user", "client_ip", "ts"] : List String).find? nameHit =
        some "client_ip" := by decide
    simp [autodetect_ip_col, hfind]
  · intro df
    have hq : ∀ i, colQualifies ⟨df.columns, df.rows.take 1000⟩ i = colQualifies df i := by
      intro i
      unfold colQualifies phase2vals
      simp [List.take_take]
    have hfun : (fun q : Nat × String => colQualifies ⟨df.columns, df.rows.take 1000⟩ q.1) =
        (fun q : Nat × String => colQualifies df q.1) := funext (fun q => hq q.1)
    unfold autodetect_ip_col
    cases hf : df.columns.find? nameHit with
    | some c => rfl
    | none => rw [hfun]
  · intro df hnone
    have hfind : df.columns.find? nameHit = none := by
      rw [List.find?_eq_none]
      intro c hc
      simp [hnone c hc]
    simp [autodetect_ip_col, hfind]
  · intro h t ht
    have ht' : (0 : ℚ) < (t : ℚ) := by exact_mod_cast ht
    rw [le_div_iff₀ ht']
    constructor
    · intro hle
      have hc : (t : ℚ) ≤ 2 * (h : ℚ) := by exact_mod_cast hle
      linarith
    · intro hle
      have hc : (t : ℚ) ≤ 2 * (h : ℚ) := by linarith
      exact_mod_cast hc
  · intro cityB asnB g df hauto
    simp [processWhole, hauto]

/-- C6 witness: the spec's example schema resolves to client_ip with no
rows at all, and a one-column table of non-IP values makes the
whole-table run fail with the detection error. -/
theorem autodetect_two_phase_witness :
    autodetect_ip_col ⟨["user", "client_ip", "ts"], []⟩ = some "client_ip" ∧
    processWhole (fun _ => Except.error ()) none ⟨none, "geoip"⟩ ⟨["w"], [[Cell.str "q"]]⟩ =
      PRes.err Err.ipColumnNotDetected :=
  ⟨autodetect_two_phase.2.1 [],
    autodetect_two_phase.2.2.2.2.2 (fun _ => Except.error ()) none "geoip"
      ⟨["w"], [[Cell.str "q"]]⟩ (by decide)⟩

/-- C2 (amended): with an explicitly configured IP column, chunked mode
produces exactly the whole-table result — the same header written once
before the first batch and the same rows in the same order — for every
chunk size >= 1 and every non-empty input; and in auto-detection mode
the chunked run resolves the IP column from the first batch only and
reuses it for all later batches: it equals the run with that
first-batch-detected column as the explicit configuration.  (Under
auto-detection the two modes can resolve different columns and so
produce different content — see the counterexample.) -/
theorem chunked_whole_equiv :
    (∀ (cityB : CityBackend) (asnB : Option AsnBackend) (cfg : Config) (size : Nat)
      (df : DataFrame) (c : String), cfg.ip_col = some c → df.rows ≠ [] → 1 ≤ size →
      processChunked cityB asnB cfg size df = processWhole cityB asnB cfg df) ∧
    (∀ (cityB : CityBackend) (asnB : Option AsnBackend) (g : String) (size : Nat)
      (df : DataFrame),
      processChunked cityB asnB ⟨none, g⟩ size df =
        processChunked cityB asnB
          ⟨autodetect_ip_col ⟨df.columns, (chunksOf size df.rows).headD []⟩, g⟩ size df) := by
  constructor
  · intro cityB asnB cfg size df c hc hne hs
    cases hch : chunksOf size df.rows with
    | nil => exact absurd hch (chunksOf_ne_nil size df.rows hne)
    | cons c1 rest =>
      by_cases h1 : c ∈ df.columns
      · by_cases h2 : cfg.geoip_col ∈ df.columns
        · simp [processChunked, processWhole, hch, hc,
            enrich_err_coll cityB asnB ⟨df.columns, c1⟩ c cfg.geoip_col h1 h2,
            enrich_err_coll cityB asnB df c cfg.geoip_col h1 h2]
        · have hok1 := enrich_ok cityB asnB ⟨df.columns, c1⟩ c cfg.geoip_col h1 h2
          have hok2 := enrich_ok cityB asnB df c cfg.geoip_col h1 h2
          have hrun := runChunksAux_ok cityB asnB df.columns c cfg.geoip_col h1 h2 rest
          have hfl : ((c1 :: rest) : List (List (List Cell))).flatten = df.rows := by
            rw [← hch]
            exact chunksOf_flatten size hs df.rows
          simp only [processChunked, processWhole, hch, hc, hok1, hok2, hrun]
          congr 1
          rw [← hfl]
          simp [List.map_append, List.map_flatten]
      · simp [processChunked, processWhole, hch, hc,
          enrich_err_col cityB asnB ⟨df.columns, c1⟩ c cfg.geoip_col h1,
          enrich_err_col cityB asnB df c cfg.geoip_col h1]
  · intro cityB asnB g size df
    cases hch : chunksOf size df.rows with
    | nil => simp [processChunked, hch]
    | cons c1 rest =>
      simp only [processChunked, hch, List.headD_cons]
      cases hauto : autodetect_ip_col ⟨df.columns, c1⟩ <;> simp [hauto]

/-- C2 counterexample: on a concrete two-column table with auto-detection
configured (no explicit IP column), chunk size 1 produces different
logical content than whole-table mode: whole-table sampling resolves
column x, first-batch sampling resolves column y, so the output schemas
and rows differ. -/
theorem chunked_whole_differ :
    processChunked (fun _ => Except.error ()) none ⟨none, "geoip"⟩ 1
        ⟨["x", "y"], [[Cell.str "a", Cell.str "2.2.2.2"],
          [Cell.str "1.1.1.1", Cell.str "3.3.3.3"]]⟩ ≠
      processWhole (fun _ => Except.error ()) none ⟨none, "geoip"⟩
        ⟨["x", "y"], [[Cell.str "a", Cell.str "2.2.2.2"],
          [Cell.str "1.1.1.1", Cell.str "3.3.3.3"]]⟩ := by
  decide

/-- C2 witness: on the same table with the IP column configured
explicitly, chunk size 1 and whole-table mode agree exactly. -/
theorem chunked_whole_equiv_witness :
    processChunked (fun _ => Except.error ()) none ⟨some "y", "geoip"⟩ 1
        ⟨["x", "y"], [[Cell.str "a", Cell.str "2.2.2.2"],
          [Cell.str "1.1.1.1", Cell.str "3.3.3.3"]]⟩ =
      processWhole (fun _ => Except.error ()) none ⟨some "y", "geoip"⟩
        ⟨["x", "y"], [[Cell.str "a", Cell.str "2.2.2.2"],
          [Cell.str "1.1.1.1", Cell.str "3.3.3.3"]]⟩ :=
  chunked_whole_equiv.1 (fun _ => Except.error ()) none ⟨some "y", "geoip"⟩ 1
    ⟨["x", "y"], [[Cell.str "a", Cell.str "2.2.2.2"],
      [Cell.str "1.1.1.1", Cell.str "3.3.3.3"]]⟩ "y" rfl (by decide) (by decide)

/-- C10 (amended): the two database handles are acquired once per
`enrich_dataframe` call — that is once per processed batch in chunked
mode, and at most once per pipeline invocation in whole-table mode —
and every acquisition is paired with a release on every exit path
(including the fatal per-batch errors): in both modes the close counts
equal the open counts, and a successful chunked run opens the city
handle exactly once per batch. -/
theorem handle_per_batch_balanced :
    (∀ (cityB : CityBackend) (asnB : Option AsnBackend) (cfg : Config) (df : DataFrame),
      countEv .closeCity (processWholeT cityB asnB cfg df).2 =
        countEv .openCity (processWholeT cityB asnB cfg df).2 ∧
      countEv .closeAsn (processWholeT cityB asnB cfg df).2 =
        countEv .openAsn (processWholeT cityB asnB cfg df).2 ∧
      countEv .openCity (processWholeT cityB asnB cfg df).2 ≤ 1) ∧
    (∀ (cityB : CityBackend) (asnB : Option AsnBackend) (cfg : Config) (size : Nat)
      (df : DataFrame),
      countEv .closeCity (processChunkedT cityB asnB cfg size df).2 =
        countEv .openCity (processChunkedT cityB asnB cfg size df).2 ∧
      countEv .closeAsn (processChunkedT cityB asnB cfg size df).2 =
        countEv .openAsn (processChunkedT cityB asnB cfg size df).2) ∧
    (∀ (cityB : CityBackend) (asnB : Option AsnBackend) (cfg : Config) (size : Nat)
      (df : DataFrame) (cols : List String) (rows : List (List Cell)),
      (processChunkedT cityB asnB cfg size df).1 = PRes.ok cols rows →
      countEv .openCity (processChunkedT cityB asnB cfg size df).2 =
        (chunksOf size df.rows).length) := by
  refine ⟨?_, ?_, ?_⟩
  · intro cityB asnB cfg df
    obtain ⟨ho, hc, ha⟩ := enrichEvents_counts asnB.isSome
    unfold processWholeT enrichT
    cases hi : (match cfg.ip_col with
        | some c => some c
        | none => autodetect_ip_col df) with
    | none => simp [countEv]
    | some ipc =>
      cases he : enrich_dataframe cityB asnB df ipc cfg.geoip_col <;>
        simp [he, ho, hc, ha]
  · intro cityB asnB cfg size df
    obtain ⟨ho, hc, ha⟩ := enrichEvents_counts asnB.isSome
    unfold processChunkedT enrichT
    cases hch : chunksOf size df.rows with
    | nil => simp [countEv]
    | cons c1 rest =>
      cases hi : (match cfg.ip_col with
          | some c => some c
          | none => autodetect_ip_col ⟨df.columns, c1⟩) with
      | none => simp [hi, countEv]
      | some ipc =>
        cases he : enrich_dataframe cityB asnB ⟨df.columns, c1⟩ ipc cfg.geoip_col with
        | error e => simp [hi, he, ho, hc, ha]
        | ok out =>
          simp only [hi, he]
          have hbal := runChunksT_balance cityB asnB df.columns ipc cfg.geoip_col rest
          rcases hrec : runChunksT cityB asnB df.columns ipc cfg.geoip_col rest with ⟨res, tr2⟩
          rw [hrec] at hbal
          simp only [countEv] at hbal ho hc ha
          cases res <;>
            exact ⟨by simp only [countEv, List.count_append]; omega,
              by simp only [countEv, List.count_append]; omega⟩
  · intro cityB asnB cfg size df cols rows hok
    obtain ⟨ho, hc, ha⟩ := enrichEvents_counts asnB.isSome
    unfold processChunkedT enrichT at hok ⊢
    cases hch : chunksOf size df.rows with
    | nil => rw [hch] at hok; simp at hok
    | cons c1 rest =>
      rw [hch] at hok
      try simp only [] at hok
      try simp only []
      cases hi : (match cfg.ip_col with
          | some c => some c
          | none => autodetect_ip_col ⟨df.columns, c1⟩) with
      | none => rw [hi] at hok; simp at hok
      | some ipc =>
        rw [hi] at hok
        try simp only [] at hok
        try simp only [hi]
        cases he : enrich_dataframe cityB asnB ⟨df.columns, c1⟩ ipc cfg.geoip_col with
        | error e => rw [he] at hok; simp at hok
        | ok out =>
          rw [he] at hok
          try simp only [] at hok
          try simp only [he]
          rcases hrec : runChunksT cityB asnB df.columns ipc cfg.geoip_col rest with ⟨res, tr2⟩
          rw [hrec] at hok
          try simp only [] at hok
          try simp only [hrec]
          cases res with
          | error e => simp at hok
          | ok rest2 =>
            have hcnt := runChunksT_ok_opens cityB asnB df.columns ipc cfg.geoip_col rest
              rest2 (by rw [hrec])
            rw [hrec] at hcnt
            simp only [countEv] at hcnt ho
            simp only [countEv, List.count_append, List.length_cons]
            omega

/-- C10 counterexample: a chunked run over a two-row table with chunk
size 1 opens the city handle twice, not once per pipeline invocation. -/
theorem handles_reopened_per_chunk :
    countEv .openCity (processChunkedT (fun _ => Except.error ()) none ⟨some "ip", "geoip"⟩ 1
      ⟨["ip"], [[Cell.str "a"], [Cell.str "b"]]⟩).2 ≠ 1 := by
  decide

/-- C10 witness: on that same run the city handle is opened exactly once
per batch (two batches). -/
theorem handle_per_batch_balanced_witness :
    countEv .openCity (processChunkedT (fun _ => Except.error ()) none ⟨some "ip", "geoip"⟩ 1
      ⟨["ip"], [[Cell.str "a"], [Cell.str "b"]]⟩).2 =
      (chunksOf 1 (⟨["ip"], [[Cell.str "a"], [Cell.str "b"]]⟩ : DataFrame).rows).length :=
  handle_per_batch_balanced.2.2 (fun _ => Except.error ()) none ⟨some "ip", "geoip"⟩ 1
    ⟨["ip"], [[Cell.str "a"], [Cell.str "b"]]⟩ ["ip", "geoip"]
    [[Cell.str "a", Cell.str ""], [Cell.str "b", Cell.str ""]] (by decide)
